import Mathlib

/-!
Verification of the JWT test scripts `scripts/test-jwt.py` and
`scripts/test-jwt-full.py` (sunnysystems/sunshine).

The scripts wrap the PyJWT library: `jwt.encode` signs a claims payload
with HMAC-SHA256 and `jwt.decode` verifies a token against a secret,
expected issuer and expected audience.  The library itself is not part of
the repository, so its behaviour is modelled from the specification
(verification order: structural/signature, then expiration, then issuer,
then audience), with signature verification abstracted symbolically:
a signature verifies exactly when the verifying secret equals the
signing secret.  Everything else (configuration, `generate_test_token`,
`validate_token`, the two `main` functions) is translated directly from
the Python source.
-/

deriving instance DecidableEq for Except

namespace Sunshine

/-- A (resource, action) pair, one element of the `permissions` list in the
token payload of `generate_test_token`. -/
structure Permission where
  resource : String
  action : String
deriving DecidableEq, Repr

/-- The claims payload carried by a token, mirroring the dictionary built in
`generate_test_token` (`test-jwt-full.py` lines 20-37).  `iat` and `exp` are
timestamps in whole seconds since the epoch, as PyJWT serialises datetimes. -/
structure Claims where
  userId : String
  email : String
  organizationId : String
  organizationSlug : String
  role : String
  permissions : List Permission
  iss : String
  aud : String
  iat : Nat
  exp : Nat
deriving DecidableEq, Repr

/-- Modelled from the spec: a token string as seen by `jwt.decode` (the PyJWT
library, not in the repository).  A well-formed signed token determines its
claims payload and the secret it was signed with; every other string
(malformed, truncated, or lacking the claims structure) is `malformed`. -/
inductive Token where
  | malformed (s : String)
  | signed (payload : Claims) (secret : String)
deriving DecidableEq, Repr

/-- The failure classification of `Validate`, one constructor per exception
branch caught in `validate_token`. -/
inductive ErrorKind where
  | InvalidToken
  | Expired
  | InvalidIssuer
  | InvalidAudience
deriving DecidableEq, Repr

/-- Modelled from the spec: `jwt.encode(payload, secret, algorithm='HS256')`
from the PyJWT library (not in the repository) — signing a serialised claims
structure with a shared secret, deterministic given identical inputs. -/
def jwt_encode (payload : Claims) (secret : String) : Token :=
  Token.signed payload secret

/-- Modelled from the spec: `jwt.decode(token, secret, algorithms=['HS256'],
issuer=expectedIssuer, audience=expectedAudience)` from the PyJWT library
(not in the repository).  Verification order is fixed:
1. structural/signature check (`InvalidToken`),
2. expiration check (`Expired` when now ≥ `exp`),
3. issuer check (`InvalidIssuer`),
4. audience check (`InvalidAudience`);
on success the decoded claims are returned.  Signature verification is
abstracted as equality of the signing and verifying secrets. -/
def jwt_decode (tok : Token) (secret expectedIssuer expectedAudience : String)
    (now : Nat) : Except ErrorKind Claims :=
  match tok with
  | Token.malformed _ => Except.error ErrorKind.InvalidToken
  | Token.signed payload sigSecret =>
    if sigSecret ≠ secret then Except.error ErrorKind.InvalidToken
    else if payload.exp ≤ now then Except.error ErrorKind.Expired
    else if payload.iss ≠ expectedIssuer then Except.error ErrorKind.InvalidIssuer
    else if payload.aud ≠ expectedAudience then Except.error ErrorKind.InvalidAudience
    else Except.ok payload

/-- The process-wide configuration both scripts read from the environment at
startup: `JWT_SECRET`, `JWT_ISSUER`, `JWT_AUDIENCE`. -/
structure Config where
  JWT_SECRET : String
  JWT_ISSUER : String
  JWT_AUDIENCE : String
deriving DecidableEq, Repr

/-- The insecure default value of `JWT_SECRET` used when the environment
variable is unset (both scripts, line 14). -/
def defaultSecret : String := "your-jwt-secret-key-min-32-characters-long"

/-- The configuration obtained when none of the three environment variables
is set: the documented insecure defaults. -/
def defaultConfig : Config :=
  { JWT_SECRET := defaultSecret
    JWT_ISSUER := "saas-scaffolding"
    JWT_AUDIENCE := "microservices" }

/-- The claims dictionary built by `generate_test_token`
(`test-jwt-full.py` lines 20-37).  The source reads the clock twice —
`'iat': datetime.utcnow()` and `'exp': datetime.utcnow() + timedelta(hours=1)`
are two separate calls — so the two successive readings `t1` and `t2`
(seconds since epoch, `t1 ≤ t2` in any real execution) are explicit
parameters. -/
def genClaims (cfg : Config) (t1 t2 : Nat) : Claims :=
  { userId := "test-user-id-123"
    email := "test@example.com"
    organizationId := "test-org-id-456"
    organizationSlug := "test-org"
    role := "owner"
    permissions :=
      [ { resource := "organization", action := "read" }
      , { resource := "organization", action := "update" }
      , { resource := "users", action := "read" }
      , { resource := "users", action := "create" } ]
    iss := cfg.JWT_ISSUER
    aud := cfg.JWT_AUDIENCE
    iat := t1
    exp := t2 + 3600 }

/-- `generate_test_token` (`test-jwt-full.py` lines 18-39): build the test
payload and sign it with the configured secret. -/
def generate_test_token (cfg : Config) (t1 t2 : Nat) : Token :=
  jwt_encode (genClaims cfg t1 t2) cfg.JWT_SECRET

/-- `validate_token` (identical in `test-jwt.py` lines 18-40 and
`test-jwt-full.py` lines 41-63): call `jwt.decode` with the configured
secret, issuer and audience; on success return the payload, on each
classified failure print a diagnostic line and return `None`.  The result
pairs the returned payload (`none` for Python's `None`) with the list of
lines printed. -/
def validate_token (cfg : Config) (tok : Token) (now : Nat) :
    Option Claims × List String :=
  match jwt_decode tok cfg.JWT_SECRET cfg.JWT_ISSUER cfg.JWT_AUDIENCE now with
  | Except.ok payload => (some payload, [])
  | Except.error ErrorKind.Expired => (none, ["❌ Token expired"])
  | Except.error ErrorKind.InvalidIssuer =>
      (none, ["❌ Invalid issuer. Expected: " ++ cfg.JWT_ISSUER])
  | Except.error ErrorKind.InvalidAudience =>
      (none, ["❌ Invalid audience. Expected: " ++ cfg.JWT_AUDIENCE])
  | Except.error ErrorKind.InvalidToken => (none, ["❌ Invalid token"])

/-- A command-line argument of the scripts: either the literal string
`--generate` (only meaningful to `test-jwt-full.py`), or any other string,
which both scripts treat as a token to validate. -/
inductive Arg where
  | generateFlag
  | tokenArg (t : Token)
deriving DecidableEq, Repr

/-- The token an argument denotes when read as a token string:
`--generate` is not a well-formed token, any other argument carries its
parsed token. -/
def Arg.asToken : Arg → Token
  | Arg.generateFlag => Token.malformed "--generate"
  | Arg.tokenArg t => t

/-- The behaviour `test-jwt-full.py` selects from its argument list
(`main`, lines 79-116): generate-and-validate when the first argument is
`--generate`, validate when a first argument is present and is not
`--generate`, and usage message plus non-zero exit when no argument is
supplied. -/
inductive Mode where
  | genValidate
  | validateMode
  | usageError
deriving DecidableEq, Repr

/-- The mode dispatch of `test-jwt-full.py`'s `main`: the condition
`len(sys.argv) > 1 and sys.argv[1] == '--generate'` selects the generate
branch, otherwise `len(sys.argv) < 2` selects the usage branch, otherwise
the first argument is validated as a token. -/
def fullMode (argv : List Arg) : Mode :=
  match argv with
  | Arg.generateFlag :: _ => Mode.genValidate
  | Arg.tokenArg _ :: _ => Mode.validateMode
  | [] => Mode.usageError

/-- `main` of `test-jwt-full.py` (lines 65-172), reduced to its exit status.
With the secret at its default the script only prints a warning and
continues.  In the `--generate` branch it generates a test token (clock
readings `t1`, `t2`) and validates it at time `now`, exiting 0 on success
and 1 on failure; with a token argument it validates that token the same
way; with no arguments it prints usage and exits 1. -/
def fullMain (cfg : Config) (argv : List Arg) (t1 t2 now : Nat) : Nat :=
  match argv with
  | Arg.generateFlag :: _ =>
      if (validate_token cfg (generate_test_token cfg t1 t2) now).fst.isSome
      then 0 else 1
  | Arg.tokenArg tok :: _ =>
      if (validate_token cfg tok now).fst.isSome then 0 else 1
  | [] => 1

/-- `main` of `test-jwt.py` (lines 42-123), reduced to its exit status.
If the secret is at its insecure default the script exits 1 before looking
at any argument; with no argument it prints usage and exits 1; otherwise it
validates the first argument as a token, exiting 0 on success and 1 on
failure. -/
def jwtMain (cfg : Config) (argv : List Arg) (now : Nat) : Nat :=
  if cfg.JWT_SECRET = defaultSecret then 1
  else
    match argv with
    | [] => 1
    | a :: _ =>
        if (validate_token cfg a.asToken now).fst.isSome then 0 else 1

/-- C1: round-trip law — validating the token produced by `Generate(C, S)`
with the same secret `S`, expected issuer `C.issuer` and expected audience
`C.audience` succeeds and returns claims equal to `C`, provided validation
happens before `C.expiresAt`. -/
theorem generate_validate_roundtrip (C : Claims) (S : String) (now : Nat)
    (h : now < C.exp) :
    jwt_decode (jwt_encode C S) S C.iss C.aud now = Except.ok C := by
  simp [jwt_encode, jwt_decode, Nat.not_le.mpr h]

/-- Witness for C1 at a concrete claims structure, secret and time. -/
theorem generate_validate_roundtrip_witness :
    (10 : Nat) < (⟨"u1", "a@b.com", "o1", "org", "owner",
        [⟨"organization", "read"⟩], "X", "Y", 0, 3600⟩ : Claims).exp
    ∧ jwt_decode
        (jwt_encode ⟨"u1", "a@b.com", "o1", "org", "owner",
          [⟨"organization", "read"⟩], "X", "Y", 0, 3600⟩ "secret-s") "secret-s"
        "X" "Y" 10
      = Except.ok ⟨"u1", "a@b.com", "o1", "org", "owner",
          [⟨"organization", "read"⟩], "X", "Y", 0, 3600⟩ :=
  ⟨by decide,
   generate_validate_roundtrip ⟨"u1", "a@b.com", "o1", "org", "owner",
     [⟨"organization", "read"⟩], "X", "Y", 0, 3600⟩ "secret-s" 10 (by decide)⟩

/-- C2: the issuer check precedes the audience check — a token with a valid
signature that is unexpired but fails both the issuer and the audience check
is classified `InvalidIssuer`, not `InvalidAudience`. -/
theorem issuer_checked_before_audience (C : Claims) (S iss aud : String)
    (now : Nat) (hexp : now < C.exp) (hiss : C.iss ≠ iss) (haud : C.aud ≠ aud) :
    jwt_decode (Token.signed C S) S iss aud now
      = Except.error ErrorKind.InvalidIssuer := by
  simp [jwt_decode, Nat.not_le.mpr hexp, hiss]

/-- Witness for C2 at a concrete token failing both issuer and audience. -/
theorem issuer_checked_before_audience_witness :
    (5 : Nat) < (⟨"u", "e", "o", "s", "r", [], "bad-iss", "bad-aud", 0, 100⟩ :
        Claims).exp
    ∧ ("bad-iss" : String) ≠ "good-iss" ∧ ("bad-aud" : String) ≠ "good-aud"
    ∧ jwt_decode
        (Token.signed ⟨"u", "e", "o", "s", "r", [], "bad-iss", "bad-aud", 0, 100⟩
          "sec") "sec" "good-iss" "good-aud" 5
      = Except.error ErrorKind.InvalidIssuer :=
  ⟨by decide, by decide, by decide,
   issuer_checked_before_audience
     ⟨"u", "e", "o", "s", "r", [], "bad-iss", "bad-aud", 0, 100⟩
     "sec" "good-iss" "good-aud" 5 (by decide) (by decide) (by decide)⟩

/-- C3 counterexample: a token whose `expiresAt` is in the past but whose
signature does not verify (signed with "s1", validated with "s2") is
classified `InvalidToken`, not `Expired` — the signature check comes first,
so `Expired` is not returned "regardless of signature correctness". -/
theorem expired_bad_signature_counterexample :
    (⟨"u", "e", "o", "s", "r", [], "i", "a", 0, 1⟩ : Claims).exp ≤ 2
    ∧ jwt_decode (Token.signed ⟨"u", "e", "o", "s", "r", [], "i", "a", 0, 1⟩ "s1")
        "s2" "i" "a" 2
      = Except.error ErrorKind.InvalidToken
    ∧ jwt_decode (Token.signed ⟨"u", "e", "o", "s", "r", [], "i", "a", 0, 1⟩ "s1")
        "s2" "i" "a" 2
      ≠ Except.error ErrorKind.Expired := by
  refine ⟨by decide, by decide, by decide⟩

/-- C3 amended: for every token whose `expiresAt` lies in the past at
validation time and whose signature verifies under the validation secret,
`Validate` returns `Expired`, regardless of issuer or audience
correctness. -/
theorem expired_token_result (C : Claims) (S iss aud : String) (now : Nat)
    (hexp : C.exp ≤ now) :
    jwt_decode (Token.signed C S) S iss aud now
      = Except.error ErrorKind.Expired := by
  simp [jwt_decode, hexp]

/-- Witness for the amended C3 at a concrete expired token with wrong issuer
and wrong audience. -/
theorem expired_token_result_witness :
    (⟨"u", "e", "o", "s", "r", [], "bad-iss", "bad-aud", 0, 1⟩ : Claims).exp ≤ 2
    ∧ jwt_decode
        (Token.signed ⟨"u", "e", "o", "s", "r", [], "bad-iss", "bad-aud", 0, 1⟩
          "sec") "sec" "good-iss" "good-aud" 2
      = Except.error ErrorKind.Expired :=
  ⟨by decide,
   expired_token_result ⟨"u", "e", "o", "s", "r", [], "bad-iss", "bad-aud", 0, 1⟩
     "sec" "good-iss" "good-aud" 2 (by decide)⟩

/-- C4: a token signed with secret `S1` and validated with a different secret
`S2 ≠ S1` is classified `InvalidToken`, whatever its claims. -/
theorem wrong_secret_invalid_token (C : Claims) (S1 S2 iss aud : String)
    (now : Nat) (h : S1 ≠ S2) :
    jwt_decode (Token.signed C S1) S2 iss aud now
      = Except.error ErrorKind.InvalidToken := by
  simp [jwt_decode, h]

/-- Witness for C4 at a concrete otherwise-valid token and two distinct
secrets. -/
theorem wrong_secret_invalid_token_witness :
    ("s1" : String) ≠ "s2"
    ∧ jwt_decode (Token.signed ⟨"u", "e", "o", "s", "r", [], "i", "a", 0, 100⟩
        "s1") "s2" "i" "a" 5
      = Except.error ErrorKind.InvalidToken :=
  ⟨by decide,
   wrong_secret_invalid_token ⟨"u", "e", "o", "s", "r", [], "i", "a", 0, 100⟩
     "s1" "s2" "i" "a" 5 (by decide)⟩

/-- C5: a token whose decoded issuer differs from the expected issuer but is
otherwise valid (correct signature, unexpired, correct audience) is
classified `InvalidIssuer`, and `validate_token` reports the failure
together with the expected issuer value. -/
theorem invalid_issuer_reported (cfg : Config) (C : Claims) (now : Nat)
    (hexp : now < C.exp) (hiss : C.iss ≠ cfg.JWT_ISSUER)
    (haud : C.aud = cfg.JWT_AUDIENCE) :
    jwt_decode (Token.signed C cfg.JWT_SECRET) cfg.JWT_SECRET cfg.JWT_ISSUER
        cfg.JWT_AUDIENCE now
      = Except.error ErrorKind.InvalidIssuer
    ∧ validate_token cfg (Token.signed C cfg.JWT_SECRET) now
      = (none, ["❌ Invalid issuer. Expected: " ++ cfg.JWT_ISSUER]) := by
  have hd : jwt_decode (Token.signed C cfg.JWT_SECRET) cfg.JWT_SECRET
      cfg.JWT_ISSUER cfg.JWT_AUDIENCE now
      = Except.error ErrorKind.InvalidIssuer := by
    simp [jwt_decode, Nat.not_le.mpr hexp, hiss]
  exact ⟨hd, by simp [validate_token, hd]⟩

/-- Witness for C5 at a concrete token with a wrong issuer under the
default configuration. -/
theorem invalid_issuer_reported_witness :
    (5 : Nat) < (⟨"u", "e", "o", "s", "r", [], "evil", "microservices", 0, 100⟩ :
        Claims).exp
    ∧ validate_token defaultConfig
        (Token.signed ⟨"u", "e", "o", "s", "r", [], "evil", "microservices", 0, 100⟩
          defaultConfig.JWT_SECRET) 5
      = (none, ["❌ Invalid issuer. Expected: " ++ defaultConfig.JWT_ISSUER]) :=
  ⟨by decide,
   (invalid_issuer_reported defaultConfig
     ⟨"u", "e", "o", "s", "r", [], "evil", "microservices", 0, 100⟩ 5
     (by decide) (by decide) (by decide)).right⟩

/-- C6: a token whose decoded audience differs from the expected audience but
is otherwise valid (correct signature, unexpired, correct issuer) is
classified `InvalidAudience`, and `validate_token` reports the failure
together with the expected audience value. -/
theorem invalid_audience_reported (cfg : Config) (C : Claims) (now : Nat)
    (hexp : now < C.exp) (hiss : C.iss = cfg.JWT_ISSUER)
    (haud : C.aud ≠ cfg.JWT_AUDIENCE) :
    jwt_decode (Token.signed C cfg.JWT_SECRET) cfg.JWT_SECRET cfg.JWT_ISSUER
        cfg.JWT_AUDIENCE now
      = Except.error ErrorKind.InvalidAudience
    ∧ validate_token cfg (Token.signed C cfg.JWT_SECRET) now
      = (none, ["❌ Invalid audience. Expected: " ++ cfg.JWT_AUDIENCE]) := by
  have hd : jwt_decode (Token.signed C cfg.JWT_SECRET) cfg.JWT_SECRET
      cfg.JWT_ISSUER cfg.JWT_AUDIENCE now
      = Except.error ErrorKind.InvalidAudience := by
    simp [jwt_decode, Nat.not_le.mpr hexp, hiss, haud]
  exact ⟨hd, by simp [validate_token, hd]⟩

/-- Witness for C6 at a concrete token with a wrong audience under the
default configuration. -/
theorem invalid_audience_reported_witness :
    (5 : Nat) < (⟨"u", "e", "o", "s", "r", [], "saas-scaffolding", "evil", 0, 100⟩ :
        Claims).exp
    ∧ validate_token defaultConfig
        (Token.signed
          ⟨"u", "e", "o", "s", "r", [], "saas-scaffolding", "evil", 0, 100⟩
          defaultConfig.JWT_SECRET) 5
      = (none, ["❌ Invalid audience. Expected: " ++ defaultConfig.JWT_AUDIENCE]) :=
  ⟨by decide,
   (invalid_audience_reported defaultConfig
     ⟨"u", "e", "o", "s", "r", [], "saas-scaffolding", "evil", 0, 100⟩ 5
     (by decide) (by decide) (by decide)).right⟩

/-- C7 counterexample: `generate_test_token` reads the clock twice, so when
the clock advances between the two readings (here from second 0 to second 1)
the generated `exp` is not `iat` plus exactly one hour. -/
theorem generate_exp_counterexample :
    (genClaims defaultConfig 0 1).exp ≠ (genClaims defaultConfig 0 1).iat + 3600 := by
  decide

/-- C7 amended: `issuedAt` equals the first clock reading at generation and
`expiresAt` equals the second clock reading plus exactly one hour (3600
seconds); when the clock does not advance between the two readings,
`expiresAt` equals `issuedAt` plus exactly one hour. -/
theorem generate_timestamps (cfg : Config) (t1 t2 : Nat) :
    generate_test_token cfg t1 t2 = Token.signed (genClaims cfg t1 t2) cfg.JWT_SECRET
    ∧ (genClaims cfg t1 t2).iat = t1
    ∧ (genClaims cfg t1 t2).exp = t2 + 3600
    ∧ (genClaims cfg t1 t1).exp = (genClaims cfg t1 t1).iat + 3600 :=
  ⟨rfl, rfl, rfl, rfl⟩

/-- C8: for both scripts, the exit status is 0 exactly on a successful
validation (for `test-jwt-full.py`, either of a just-generated token in the
`--generate` branch or of the supplied token; for `test-jwt.py`,
additionally requiring the secret to be configured away from its default),
and non-zero when no token argument is supplied, when the secret is at its
default in `test-jwt.py`, or when validation fails. -/
theorem exit_status (cfg : Config) (argv : List Arg) (t1 t2 now : Nat) :
    (fullMain cfg argv t1 t2 now = 0 ↔
      (argv.head? = some Arg.generateFlag
        ∧ (validate_token cfg (generate_test_token cfg t1 t2) now).fst.isSome)
      ∨ (∃ tok, argv.head? = some (Arg.tokenArg tok)
        ∧ (validate_token cfg tok now).fst.isSome))
    ∧ (jwtMain cfg argv now = 0 ↔
      cfg.JWT_SECRET ≠ defaultSecret
      ∧ ∃ a, argv.head? = some a ∧ (validate_token cfg a.asToken now).fst.isSome) := by
  constructor
  · rcases argv with _ | ⟨_ | tok, rest⟩ <;> simp [fullMain]
    · cases hv : (validate_token cfg (generate_test_token cfg t1 t2) now).fst <;>
        simp [hv]
    · cases hv : (validate_token cfg tok now).fst <;> simp [hv]
  · by_cases hs : cfg.JWT_SECRET = defaultSecret
    · simp [jwtMain, hs]
    · rcases argv with _ | ⟨a, rest⟩ <;> simp [jwtMain, hs]
      cases hv : (validate_token cfg a.asToken now).fst <;> simp [hv]

/-- C9 counterexample: invoking `test-jwt-full.py` with no arguments does not
select the generate-and-validate mode — it selects the usage-error branch and
exits 1; the generate-and-validate mode is selected by the `--generate`
argument. -/
theorem no_args_mode_counterexample :
    fullMode [] ≠ Mode.genValidate
    ∧ fullMain defaultConfig [] 0 0 0 = 1
    ∧ fullMode [Arg.generateFlag] = Mode.genValidate := by
  refine ⟨by decide, rfl, rfl⟩

/-- C9 amended: `test-jwt-full.py` has exactly three behaviours —
generate-and-validate, selected by passing `--generate` as the first
argument; validate, selected by a first positional argument other than
`--generate` (the token string); and a usage-error branch (print usage,
exit non-zero) when no argument is supplied. -/
theorem invocation_modes (argv : List Arg) :
    (fullMode argv = Mode.genValidate ↔ argv.head? = some Arg.generateFlag)
    ∧ (fullMode argv = Mode.validateMode ↔
        ∃ t, argv.head? = some (Arg.tokenArg t))
    ∧ (fullMode argv = Mode.usageError ↔ argv = []) := by
  rcases argv with _ | ⟨_ | tok, rest⟩ <;> simp [fullMode]

/-- C10: with the secret at its insecure default, `test-jwt-full.py` only
warns and continues — a `--generate` run still succeeds and exits 0
(whenever validation happens before the generated expiry) — whereas
`test-jwt.py` exits non-zero on every argument list, before any token is
examined. -/
theorem default_secret_divergence (t1 t2 now : Nat) (h : now < t2 + 3600) :
    fullMain defaultConfig [Arg.generateFlag] t1 t2 now = 0
    ∧ ∀ (argv : List Arg) (n : Nat), jwtMain defaultConfig argv n = 1 := by
  constructor
  · simp [fullMain, validate_token, jwt_decode, generate_test_token, jwt_encode,
      genClaims, Nat.not_le.mpr h]
  · intro argv n
    simp [jwtMain, defaultConfig]

/-- Witness for C10 at concrete clock readings and argument lists. -/
theorem default_secret_divergence_witness :
    fullMain defaultConfig [Arg.generateFlag] 0 0 0 = 0
    ∧ jwtMain defaultConfig [Arg.tokenArg (Token.malformed "x")] 0 = 1 :=
  ⟨(default_secret_divergence 0 0 0 (by decide)).left,
   (default_secret_divergence 0 0 0 (by decide)).right
     [Arg.tokenArg (Token.malformed "x")] 0⟩

end Sunshine
